import Mathlib

/-!
Shallow embedding of the capture-and-respond session orchestrator of
`src/app.js` (a Kannada/English interpreter web app), together with the
service-worker cache module. The JS program keeps its session state in
module-level mutable variables (`listening`, `manualStop`, `reachedMax`)
and in DOM text fields (`knHeard`, `enMeaning`, `myReplyEn`, `knReply`,
status/error lines, button disabled flags); we collect all of these into
an explicit `AppState` record and translate every event handler into a
pure function on `AppState`, returning in addition the list of
recognizer commands (`start`/`stop` calls) the handler issues.
Try/catch-swallowed recognizer calls are modelled by a `Bool` parameter
saying whether the underlying call throws; a handler that swallows the
exception produces the same output for both values of that parameter.
-/

namespace AIInterpreter

/-- Model of JavaScript `String.prototype.trim` on the character list:
drop whitespace from the front, then from the back. -/
def isJsWhitespace (c : Char) : Bool := c.isWhitespace

/-- Trim whitespace from both ends of a character list. -/
def trimChars (l : List Char) : List Char :=
  ((l.dropWhile isJsWhitespace).reverse.dropWhile isJsWhitespace).reverse

/-- JavaScript `s.trim()`. -/
def jsTrim (s : String) : String := String.mk (trimChars s.data)

/-- Characters matched by the sentence-terminator regex
`/[\.!?…]|[।]/g` in `src/app.js` line 118. -/
def isSentenceTerminator (c : Char) : Bool :=
  c = '.' || c = '!' || c = '?' || c = '…' || c = '।'

/-- `const MAX_SENTENCES = 5` (`src/app.js` line 117). -/
def MAX_SENTENCES : Nat := 5

/-- `const sentenceCount = (t) => (t.match(/[\.!?…]|[।]/g) || []).length`:
the number of sentence-terminating characters occurring in `t`
(`src/app.js` line 118). -/
def sentenceCount (t : String) : Nat :=
  (t.data.filter isSentenceTerminator).length

/-- One entry of a recognizer result batch: the transcript of its first
alternative (`e.results[i][0].transcript`) and its `isFinal` flag. The
batch we pass to the handler is the slice `e.results[resultIndex ..]`,
i.e. exactly the new results. -/
structure SpeechResult where
  transcript : String
  isFinal : Bool
deriving DecidableEq, Repr

/-- Commands the handlers issue to the underlying recognizer object. -/
inductive RecCmd where
  | start
  | stop
deriving DecidableEq, Repr

/-- The program's session state: the three module-level flags of
`src/app.js` lines 120-122, the four text areas, the status and error
lines, and the button disabled flags the handlers touch. -/
structure AppState where
  listening : Bool
  manualStop : Bool
  reachedMax : Bool
  knHeard : String
  enMeaning : String
  myReplyEn : String
  knReply : String
  statusLine : String
  errorLine : String
  btnStartDisabled : Bool
  btnStopDisabled : Bool
  btnSpeakAgainDisabled : Bool
  btnCopyDisabled : Bool
deriving DecidableEq, Repr

/-- `setListening(on)` (`src/app.js` lines 133-138): records the flag,
toggles the Start/Stop buttons and sets the status line. -/
def setListening (b : Bool) (s : AppState) : AppState :=
  { s with
    listening := b
    btnStartDisabled := b
    btnStopDisabled := !b
    statusLine := if b then "Listening for Kannada…" else "" }

/-- The loop of `recognition.onresult` (`src/app.js` lines 142-147):
fold over the new results, concatenating final transcripts into the
first component (no separator) and interim transcripts, each followed
by a single space, into the second. -/
def collectFragments (batch : List SpeechResult) : String × String :=
  batch.foldl
    (fun acc r =>
      if r.isFinal then (acc.1 ++ r.transcript, acc.2)
      else (acc.1, acc.2 ++ r.transcript ++ " "))
    ("", "")

/-- `recognition.onresult` (`src/app.js` lines 141-161). Collects the
batch's final and interim text, appends `final || interim` to the
existing textarea content (separated from it by one space when the
textarea is non-empty, then trimmed), and when the sentence count of
the combined text reaches `MAX_SENTENCES` sets `reachedMax`, requests
`recognition.stop()` (its failure is swallowed), leaves the listening
state and posts the captured-sentences status. -/
def onresult (batch : List SpeechResult) (s : AppState) :
    AppState × List RecCmd :=
  let fi := collectFragments batch
  let existing := if s.knHeard = "" then "" else s.knHeard ++ " "
  let combined := jsTrim (existing ++ (if fi.1 = "" then fi.2 else fi.1))
  let s1 := { s with knHeard := combined }
  if MAX_SENTENCES ≤ sentenceCount combined then
    ({ setListening false { s1 with reachedMax := true } with
        statusLine := "Captured 5 sentences. You can translate now." },
     [RecCmd.stop])
  else
    (s1, [])

/-- `recognition.onend` (`src/app.js` lines 169-173): while `listening`
and neither `manualStop` nor `reachedMax` is set, re-issue
`recognition.start()` inside `try {} catch {}`; `startThrows` says
whether that call throws, and the handler's output is the same either
way (the exception is swallowed). -/
def onend (_startThrows : Bool) (s : AppState) : AppState × List RecCmd :=
  if s.listening && !s.manualStop && !s.reachedMax then
    (s, [RecCmd.start])
  else
    (s, [])

/-- `btnStart` click handler (`src/app.js` lines 177-199). Clears the
error line; if speech recognition is unsupported it only posts an error;
otherwise it resets `manualStop`/`reachedMax`, clears the four text
fields, disables Speak-again/Copy, and tries `recognition.start()`:
on success it enters the listening state, and if the call throws
(`startThrows`) it posts the mic-permission error instead. -/
def btnStartClick (hasSTT startThrows : Bool) (s : AppState) :
    AppState × List RecCmd :=
  let s0 := { s with errorLine := "" }
  if !hasSTT then
    ({ s0 with errorLine := "Speech recognition not supported. Use Chrome." },
     [])
  else
    let s1 := { s0 with
      manualStop := false
      reachedMax := false
      knHeard := ""
      enMeaning := ""
      myReplyEn := ""
      knReply := ""
      btnSpeakAgainDisabled := true
      btnCopyDisabled := true }
    if startThrows then
      ({ s1 with
          errorLine := "Could not start mic. Allow mic permission and retry." },
       [RecCmd.start])
    else
      (setListening true s1, [RecCmd.start])

/-- `btnStop` click handler (`src/app.js` lines 201-206): sets
`manualStop`, requests `recognition.stop()` (failure swallowed:
`stopThrows` does not affect the result), leaves the listening state
and posts the processing status. -/
def btnStopClick (_stopThrows : Bool) (s : AppState) :
    AppState × List RecCmd :=
  ({ setListening false { s with manualStop := true } with
      statusLine := "Processing…" },
   [RecCmd.stop])

/-- `btnReset` click handler (`src/app.js` lines 208-219): sets
`manualStop`, requests `recognition.stop()` (failure swallowed:
`stopThrows` does not affect the result), clears the four text fields
and the status/error lines, and disables Speak-again/Copy. The handler
does not touch the `listening` flag or the Start/Stop button states. -/
def btnResetClick (_stopThrows : Bool) (s : AppState) :
    AppState × List RecCmd :=
  ({ s with
      manualStop := true
      knHeard := ""
      enMeaning := ""
      myReplyEn := ""
      knReply := ""
      statusLine := ""
      errorLine := ""
      btnSpeakAgainDisabled := true
      btnCopyDisabled := true },
   [RecCmd.stop])

/-- A translation request as built by the handlers:
`{ q, source, target }`. -/
structure TranslateRequest where
  q : String
  source : String
  target : String
deriving DecidableEq, Repr

/-- Synchronous part of the `btnTranslateToKn` click handler
(`src/app.js` lines 238-246), up to issuing the `translate` call:
clears the error line; if the trimmed English reply is empty it posts
an error and issues no request, otherwise it posts the translating
status and issues the request `{ q, source: "en", target: "kn" }`. -/
def btnTranslateToKnIssue (s : AppState) :
    AppState × Option TranslateRequest :=
  let s0 := { s with errorLine := "" }
  let q := jsTrim s.myReplyEn
  if q = "" then
    ({ s0 with errorLine := "Type your reply in English first." }, none)
  else
    ({ s0 with statusLine := "Translating English → Kannada…" },
     some { q := q, source := "en", target := "kn" })

/-- Continuation of the `btnTranslateToKn` click handler after the
awaited `translate` call resolves successfully with `kn`
(`src/app.js` lines 248-251): stores `kn` into the Kannada reply
field, enables Speak-again/Copy and posts the speaking status. It runs
against whatever the state is at resolution time; there is no check
that the state still belongs to the session that issued the request. -/
def btnTranslateToKnResolve (kn : String) (s : AppState) : AppState :=
  { s with
      knReply := kn
      btnSpeakAgainDisabled := false
      btnCopyDisabled := false
      statusLine := "Speaking Kannada response…" }

/-- Outcome of the primary provider's `fetch` + `res.json()`
(`translateViaLibre`, `src/app.js` lines 18-28), flattened: `ok` and
`status` of the HTTP response, whether the parsed JSON body is a
non-null object (`hasData`), and its `translatedText` field, with `""`
standing for an absent or empty (falsy) field. An `Except.error` input
stands for a network or JSON-parse failure. -/
structure LTResponse where
  ok : Bool
  status : Nat
  hasData : Bool
  translatedText : String
deriving DecidableEq, Repr

/-- Outcome of the secondary provider's `fetch` + `res.json()`
(`translateViaMyMemory`, `src/app.js` lines 30-40), flattened:
`hasResponseData` is whether `data?.responseData` is a non-null object,
and `translatedText` its `translatedText` field, `""` standing for an
absent or empty (falsy) field. -/
structure MMResponse where
  ok : Bool
  status : Nat
  hasResponseData : Bool
  translatedText : String
deriving DecidableEq, Repr

/-- `translateViaLibre` (`src/app.js` lines 18-28): propagate a
network/parse failure; throw on a non-ok HTTP status; throw
`Bad LT response` when the body is null or its `translatedText` field
is falsy; otherwise return the field. -/
def translateViaLibre (fetched : Except String LTResponse) :
    Except String String :=
  match fetched with
  | Except.error e => Except.error e
  | Except.ok res =>
    if !res.ok then
      Except.error ("LibreTranslate error " ++ toString res.status)
    else if !res.hasData || res.translatedText = "" then
      Except.error "Bad LT response"
    else
      Except.ok res.translatedText

/-- `translateViaMyMemory` (`src/app.js` lines 30-40): propagate a
network/parse failure; throw on a non-ok HTTP status; throw
`Bad MM response` when `data?.responseData?.translatedText` is falsy;
otherwise return it. -/
def translateViaMyMemory (fetched : Except String MMResponse) :
    Except String String :=
  match fetched with
  | Except.error e => Except.error e
  | Except.ok res =>
    if !res.ok then
      Except.error ("MyMemory error " ++ toString res.status)
    else if !res.hasResponseData || res.translatedText = "" then
      Except.error "Bad MM response"
    else
      Except.ok res.translatedText

/-- `translate` (`src/app.js` lines 42-49): try the primary provider on
the request; on any thrown failure, call the secondary provider with
the identical request and return its outcome. `primaryFetch` and
`secondaryFetch` model what the network returns for a given request. -/
def translate (primaryFetch : TranslateRequest → Except String LTResponse)
    (secondaryFetch : TranslateRequest → Except String MMResponse)
    (req : TranslateRequest) : Except String String :=
  match translateViaLibre (primaryFetch req) with
  | Except.ok t => Except.ok t
  | Except.error _ => translateViaMyMemory (secondaryFetch req)

/-- An available speech-synthesis voice: its BCP-47 language tag and
name. A missing `lang` property (`v.lang || ""`) is modelled as `""`. -/
structure Voice where
  lang : String
  name : String
deriving DecidableEq, Repr

/-- JavaScript `s.toLowerCase()`, modelled on the character list with
ASCII case folding (the language tags compared here are ASCII). -/
def jsToLower (s : String) : String := String.mk (s.data.map Char.toLower)

/-- JavaScript `s.startsWith(pat)`. -/
def strStartsWith (s pat : String) : Bool := pat.data.isPrefixOf s.data

/-- JavaScript `s.includes(pat)`: substring containment. -/
def strIncludes (s pat : String) : Bool :=
  decide (pat.data <:+: s.data)

/-- `pickKannadaVoice` (`src/app.js` lines 52-62): first voice whose
lowercased tag equals `kn-in`, else first whose lowercased tag starts
with `kn`, else first whose lowercased tag contains `en-in`, else
`voices[0]`, else `null`. -/
def pickKannadaVoice (voices : List Voice) : Option Voice :=
  match voices.find? (fun v => jsToLower v.lang = "kn-in") with
  | some v => some v
  | none =>
    match voices.find? (fun v => strStartsWith (jsToLower v.lang) "kn") with
    | some v => some v
    | none =>
      match voices.find? (fun v => strIncludes (jsToLower v.lang) "en-in") with
      | some v => some v
      | none => voices.head?

/-- A representative idle state with empty fields, used as a concrete
starting point for counterexamples and witnesses. -/
def sampleIdleState : AppState :=
  { listening := false
    manualStop := false
    reachedMax := false
    knHeard := ""
    enMeaning := ""
    myReplyEn := ""
    knReply := ""
    statusLine := ""
    errorLine := ""
    btnStartDisabled := false
    btnStopDisabled := true
    btnSpeakAgainDisabled := true
    btnCopyDisabled := true }

/-- The concatenation, in order and with no separator, of the final
transcripts of a batch (what the loop's `final` variable holds at the
end). -/
def finalsConcat : List SpeechResult → String
  | [] => ""
  | r :: rs => (if r.isFinal then r.transcript else "") ++ finalsConcat rs

/-- The concatenation, in order and each followed by a single space, of
the interim transcripts of a batch (what the loop's `interim` variable
holds at the end). -/
def interimsConcat : List SpeechResult → String
  | [] => ""
  | r :: rs => (if r.isFinal then "" else r.transcript ++ " ") ++ interimsConcat rs

theorem collectFragments_go (batch : List SpeechResult) (a b : String) :
    batch.foldl
      (fun acc r =>
        if r.isFinal then (acc.1 ++ r.transcript, acc.2)
        else (acc.1, acc.2 ++ r.transcript ++ " "))
      (a, b)
      = (a ++ finalsConcat batch, b ++ interimsConcat batch) := by
  induction batch generalizing a b with
  | nil => simp [finalsConcat, interimsConcat]
  | cons r rs ih =>
    simp only [List.foldl_cons]
    by_cases hf : r.isFinal
    · rw [if_pos hf, ih]
      simp [finalsConcat, interimsConcat, hf, String.append_assoc,
        String.empty_append]
    · rw [if_neg hf, ih]
      simp [finalsConcat, interimsConcat, hf, String.append_assoc,
        String.empty_append]

theorem collectFragments_eq (batch : List SpeechResult) :
    collectFragments batch = (finalsConcat batch, interimsConcat batch) := by
  have h := collectFragments_go batch "" ""
  simpa [collectFragments] using h

/-- Sentence terminators are not whitespace, so trimming never changes
the sentence count. -/
theorem sentenceTerminator_not_ws (c : Char)
    (h : isSentenceTerminator c = true) : isJsWhitespace c = false := by
  simp only [isSentenceTerminator, Bool.or_eq_true, decide_eq_true_eq] at h
  rcases h with ((((h | h) | h) | h) | h) <;> subst h <;> decide

theorem filter_dropWhile_disjoint {p q : Char → Bool}
    (h : ∀ c, q c = true → p c = false) :
    ∀ l : List Char, (l.dropWhile p).filter q = l.filter q := by
  intro l
  induction l with
  | nil => rfl
  | cons c l ih =>
    by_cases hc : p c
    · have hq : q c = false := by
        rcases hcq : q c with _ | _
        · rfl
        · rw [h c hcq] at hc; exact absurd hc (by simp)
      simp [List.dropWhile_cons, hc, List.filter_cons, hq, ih]
    · simp [List.dropWhile_cons, hc]

theorem filter_trimChars (l : List Char) :
    (trimChars l).filter isSentenceTerminator
      = l.filter isSentenceTerminator := by
  have hd : ∀ c, isSentenceTerminator c = true → isJsWhitespace c = false :=
    sentenceTerminator_not_ws
  unfold trimChars
  rw [List.filter_reverse, filter_dropWhile_disjoint hd,
      List.filter_reverse, List.reverse_reverse,
      filter_dropWhile_disjoint hd]

theorem sentenceCount_jsTrim (s : String) :
    sentenceCount (jsTrim s) = sentenceCount s := by
  simp [sentenceCount, jsTrim, filter_trimChars]

theorem sentenceCount_append (s t : String) :
    sentenceCount (s ++ t) = sentenceCount s + sentenceCount t := by
  simp [sentenceCount, String.data_append, List.filter_append]

/-- A string with no leading and no trailing whitespace (as `knHeard`
always is, being either empty or the result of a `trim`). -/
def trimmedText (t : String) : Bool :=
  (t.data.head?.all fun c => !isJsWhitespace c) &&
  (t.data.getLast?.all fun c => !isJsWhitespace c)

theorem dropWhile_of_head_not (p : Char → Bool) (l : List Char)
    (h : l.head?.all (fun c => !p c) = true) : l.dropWhile p = l := by
  cases l with
  | nil => rfl
  | cons c l =>
    simp only [List.head?_cons, Option.all_some, Bool.not_eq_true'] at h
    simp [List.dropWhile_cons, h]

/-- If `l` has no leading and no trailing whitespace, it survives as a
prefix of the trim of `l ++ m`. -/
theorem prefix_trimChars_append (l m : List Char)
    (h1 : l.head?.all (fun c => !isJsWhitespace c) = true)
    (h2 : l.getLast?.all (fun c => !isJsWhitespace c) = true) :
    l <+: trimChars (l ++ m) := by
  cases l with
  | nil => exact List.nil_prefix
  | cons c l' =>
    have hhead : isJsWhitespace c = false := by
      simpa [Option.all_some, Bool.not_eq_true'] using h1
    have hx : ((c :: l') ++ m).dropWhile isJsWhitespace = (c :: l') ++ m := by
      simp [List.cons_append, List.dropWhile_cons, hhead]
    unfold trimChars
    rw [hx, List.reverse_append, List.dropWhile_append]
    by_cases he : (m.reverse.dropWhile isJsWhitespace).isEmpty
    · rw [if_pos he,
          dropWhile_of_head_not _ _ (by rwa [List.head?_reverse]),
          List.reverse_reverse]
    · rw [if_neg he, List.reverse_append, List.reverse_reverse]
      exact List.prefix_append _ _

theorem prefix_jsTrim_append (a b : String)
    (h1 : a.data.head?.all (fun c => !isJsWhitespace c) = true)
    (h2 : a.data.getLast?.all (fun c => !isJsWhitespace c) = true) :
    a.data <+: (jsTrim (a ++ b)).data := by
  have hd : (jsTrim (a ++ b)).data = trimChars (a.data ++ b.data) := by
    simp [jsTrim, String.data_append]
  rw [hd]
  exact prefix_trimChars_append _ _ h1 h2

/-- The combined text the `onresult` handler stores into `knHeard`:
the trim of the existing content (followed by one separating space when
it is non-empty) concatenated with the batch's final text, or with its
interim text when the batch contributed no final text. -/
def combinedText (batch : List SpeechResult) (s : AppState) : String :=
  jsTrim ((if s.knHeard = "" then "" else s.knHeard ++ " ")
    ++ (if finalsConcat batch = "" then interimsConcat batch
        else finalsConcat batch))

theorem onresult_knHeard (batch : List SpeechResult) (s : AppState) :
    (onresult batch s).1.knHeard = combinedText batch s := by
  simp only [onresult, collectFragments_eq, combinedText]
  split <;> split <;> split <;> simp_all [setListening]

theorem onresult_reachedMax (batch : List SpeechResult) (s : AppState) :
    (onresult batch s).1.reachedMax
      = (decide (MAX_SENTENCES ≤ sentenceCount (combinedText batch s))
          || s.reachedMax) := by
  simp only [onresult, collectFragments_eq, combinedText]
  split <;> split <;> split <;> simp_all [setListening]

theorem onresult_listening (batch : List SpeechResult) (s : AppState) :
    (onresult batch s).1.listening
      = (s.listening
          && !decide (MAX_SENTENCES ≤ sentenceCount (combinedText batch s))) := by
  simp only [onresult, collectFragments_eq, combinedText]
  split <;> split <;> split <;> simp_all [setListening]

theorem onresult_cmds (batch : List SpeechResult) (s : AppState) :
    (onresult batch s).2
      = if MAX_SENTENCES ≤ sentenceCount (combinedText batch s) then
          [RecCmd.stop]
        else [] := by
  simp only [onresult, collectFragments_eq, combinedText]
  split <;> split <;> split <;> simp_all

theorem sentenceCount_combinedText (batch : List SpeechResult) (s : AppState) :
    sentenceCount (combinedText batch s)
      = sentenceCount s.knHeard
        + sentenceCount (if finalsConcat batch = "" then interimsConcat batch
            else finalsConcat batch) := by
  have hsp : sentenceCount " " = 0 := rfl
  have hemp : sentenceCount "" = 0 := rfl
  unfold combinedText
  rw [sentenceCount_jsTrim, sentenceCount_append]
  by_cases h : s.knHeard = ""
  · rw [if_pos h, h, hemp]
  · rw [if_neg h, sentenceCount_append, hsp, Nat.add_zero]

/-- A committed buffer holding `"pre"`, used to exercise the
accumulation step on concrete batches. -/
def statePre : AppState := { sampleIdleState with knHeard := "pre" }

/-- C1 counterexample: with committed buffer `"pre"`, a batch of two
final fragments `"a."` and `"b."` is stored as `"pre a.b."` — the two
final fragments are concatenated with no space between them, not
`"pre a. b."` as the claim states; and a batch containing only the
interim fragment `"hi"` changes the committed buffer to `"pre hi"`,
which a later final batch then treats as committed text
(`"pre hi x."`), although the claim says interim fragments are never
appended to the committed buffer. -/
theorem C1_counterexample :
    ((onresult [⟨"a.", true⟩, ⟨"b.", true⟩] statePre).1.knHeard = "pre a.b."
      ∧ "pre a.b." ≠ "pre a. b.")
  ∧ ((onresult [⟨"hi", false⟩] statePre).1.knHeard = "pre hi"
      ∧ "pre hi" ≠ "pre")
  ∧ (onresult [⟨"x.", true⟩]
        (onresult [⟨"hi", false⟩] statePre).1).1.knHeard = "pre hi x." := by
  decide

/-- C1 (corrected): in each `onresult` step the batch's final
fragments are concatenated in recognizer order with no separator
between them, and that block (not each fragment) is separated from the
previously committed text by a single space; when the batch has no
final fragment, the interim concatenation is appended to the committed
buffer in its place; provided the committed buffer is trimmed (as it
always is, being empty or a `trim` result), the previously committed
portion survives as a prefix and is never rewritten. -/
theorem C1_accumulation (batch : List SpeechResult) (s : AppState)
    (h : trimmedText s.knHeard = true) :
    (finalsConcat batch ≠ "" →
      (onresult batch s).1.knHeard
        = jsTrim ((if s.knHeard = "" then "" else s.knHeard ++ " ")
            ++ finalsConcat batch))
  ∧ (finalsConcat batch = "" →
      (onresult batch s).1.knHeard
        = jsTrim ((if s.knHeard = "" then "" else s.knHeard ++ " ")
            ++ interimsConcat batch))
  ∧ s.knHeard.data <+: ((onresult batch s).1.knHeard).data := by
  simp only [trimmedText, Bool.and_eq_true] at h
  obtain ⟨h1, h2⟩ := h
  refine ⟨?_, ?_, ?_⟩
  · intro hne
    rw [onresult_knHeard]
    simp only [combinedText]
    rw [if_neg hne]
  · intro he
    rw [onresult_knHeard]
    simp only [combinedText]
    rw [if_pos he]
  · rw [onresult_knHeard]
    by_cases hk : s.knHeard = ""
    · rw [hk]
      exact List.nil_prefix
    · simp only [combinedText, if_neg hk]
      rw [String.append_assoc]
      exact prefix_jsTrim_append _ _ h1 h2

/-- Witness for the C1 accumulation theorem at the concrete buffer
`"pre"` and a two-final-fragment batch. -/
theorem C1_accumulation_witness :
    (onresult [⟨"a.", true⟩, ⟨"b.", true⟩] statePre).1.knHeard
      = jsTrim ((if statePre.knHeard = "" then "" else statePre.knHeard ++ " ")
          ++ finalsConcat [⟨"a.", true⟩, ⟨"b.", true⟩]) :=
  (C1_accumulation _ _ (by decide)).1 (by decide)

/-- C2 counterexample: a batch whose only fragment is interim (zero
final fragments) both grows the committed buffer (from `""` to
`"a. b. c. d. e."`) and raises the auto-stop signal (`reachedMax`
becomes true), contradicting both parts of the claim. -/
theorem C2_counterexample :
    sampleIdleState.knHeard = ""
  ∧ sampleIdleState.reachedMax = false
  ∧ (∀ r ∈ [SpeechResult.mk "a. b. c. d. e." false], r.isFinal = false)
  ∧ (onresult [⟨"a. b. c. d. e.", false⟩] sampleIdleState).1.knHeard
      = "a. b. c. d. e."
  ∧ (onresult [⟨"a. b. c. d. e.", false⟩] sampleIdleState).1.reachedMax
      = true := by
  decide

/-- C2 (corrected): a batch with zero final fragments appends its
interim concatenation to the committed buffer — the buffer can grow —
and the auto-stop signal is set exactly when the sentence count of the
resulting combined text reaches the limit (or was already set), so
sentence terminators in interim text alone can trigger the stop. -/
theorem C2_interim_only_batches (batch : List SpeechResult) (s : AppState)
    (hfin : finalsConcat batch = "") :
    (onresult batch s).1.knHeard
      = jsTrim ((if s.knHeard = "" then "" else s.knHeard ++ " ")
          ++ interimsConcat batch)
  ∧ ((onresult batch s).1.reachedMax = true ↔
      (MAX_SENTENCES ≤ sentenceCount ((onresult batch s).1.knHeard)
        ∨ s.reachedMax = true)) := by
  constructor
  · rw [onresult_knHeard]
    simp only [combinedText]
    rw [if_pos hfin]
  · rw [onresult_reachedMax, onresult_knHeard]
    simp

/-- Witness for the C2 theorem on a concrete interim-only batch. -/
theorem C2_interim_only_witness :
    (onresult [⟨"x.", false⟩] sampleIdleState).1.knHeard
      = jsTrim ((if sampleIdleState.knHeard = "" then ""
            else sampleIdleState.knHeard ++ " ")
          ++ interimsConcat [⟨"x.", false⟩]) :=
  (C2_interim_only_batches _ _ (by decide)).1

/-- C4 counterexample: a batch reaching the limit moves the session out
of Listening (`listening = false`, `reachedMax = true`), yet a result
event delivered afterwards is still accumulated: the handler has no
`listening` guard, so the committed buffer changes again. -/
theorem C4_counterexample :
    (onresult [⟨"a. b. c. d. e.", true⟩] sampleIdleState).1.listening = false
  ∧ (onresult [⟨"a. b. c. d. e.", true⟩] sampleIdleState).1.reachedMax = true
  ∧ (onresult [⟨"more", true⟩]
        (onresult [⟨"a. b. c. d. e.", true⟩] sampleIdleState).1).1.knHeard
      ≠ (onresult [⟨"a. b. c. d. e.", true⟩] sampleIdleState).1.knHeard := by
  decide

/-- C4 (corrected): when a processed batch brings the sentence count of
the combined text to the limit, the handler sets `reachedMax`, leaves
the listening state and requests recognizer stop; but result events are
processed regardless of the `listening` flag (the accumulated text is
the same whatever the flag's value), so an event delivered after the
transition is still accumulated. -/
theorem C4_limit_transition (batch : List SpeechResult) (s : AppState)
    (h : MAX_SENTENCES ≤ sentenceCount ((onresult batch s).1.knHeard)) :
    (onresult batch s).1.reachedMax = true
  ∧ (onresult batch s).1.listening = false
  ∧ (onresult batch s).2 = [RecCmd.stop]
  ∧ ∀ b : Bool,
      (onresult batch { s with listening := b }).1.knHeard
        = (onresult batch s).1.knHeard := by
  rw [onresult_knHeard] at h
  refine ⟨?_, ?_, ?_, ?_⟩
  · rw [onresult_reachedMax]
    simp [h]
  · rw [onresult_listening]
    simp [h]
  · rw [onresult_cmds, if_pos h]
  · intro b
    rw [onresult_knHeard, onresult_knHeard]
    rfl

/-- Witness for the C4 limit-transition theorem on a five-sentence
final batch. -/
theorem C4_limit_witness :
    (onresult [⟨"one. two. three. four. five.", true⟩] sampleIdleState).1.reachedMax
        = true
  ∧ (onresult [⟨"one. two. three. four. five.", true⟩] sampleIdleState).2
        = [RecCmd.stop] :=
  ⟨(C4_limit_transition _ _ (by decide)).1,
   (C4_limit_transition _ _ (by decide)).2.2.1⟩

/-- C5 (confirmed): when the recognizer's end event fires with
`listening = true`, `manualStop = false` and `reachedMax = false`, the
handler re-issues the recognizer start call; when `listening` is false
or either flag is set, no restart is issued; and a throwing restart is
swallowed — the handler's outcome does not depend on whether `start`
throws. -/
theorem C5_onend_autorestart (t : Bool) (s : AppState) :
    (s.listening = true → s.manualStop = false → s.reachedMax = false →
        onend t s = (s, [RecCmd.start]))
  ∧ (s.listening = false ∨ s.manualStop = true ∨ s.reachedMax = true →
        onend t s = (s, []))
  ∧ onend t s = onend false s := by
  refine ⟨?_, ?_, rfl⟩
  · intro h1 h2 h3
    simp [onend, h1, h2, h3]
  · intro h
    rcases h with h | h | h <;> simp [onend, h]

/-- Witness for the C5 theorem at a concrete listening state. -/
theorem C5_onend_autorestart_witness :
    onend true { sampleIdleState with listening := true }
      = ({ sampleIdleState with listening := true }, [RecCmd.start]) :=
  (C5_onend_autorestart true _).1 rfl rfl rfl

/-- C8 (confirmed): `sentenceCount` is monotone under appending; hence
across any accumulation step the sentence count of the committed buffer
never decreases, and a step that contributes no text (an empty batch)
leaves it unchanged. -/
theorem C8_sentenceCount_monotone :
    (∀ s t : String, sentenceCount s ≤ sentenceCount (s ++ t))
  ∧ (∀ (batch : List SpeechResult) (s : AppState),
      sentenceCount s.knHeard ≤ sentenceCount (onresult batch s).1.knHeard)
  ∧ ∀ s : AppState,
      sentenceCount (onresult [] s).1.knHeard = sentenceCount s.knHeard := by
  refine ⟨?_, ?_, ?_⟩
  · intro s t
    rw [sentenceCount_append]
    exact Nat.le_add_right _ _
  · intro batch s
    rw [onresult_knHeard, sentenceCount_combinedText]
    exact Nat.le_add_right _ _
  · intro s
    rw [onresult_knHeard, sentenceCount_combinedText]
    simp [finalsConcat, interimsConcat, show sentenceCount "" = 0 from rfl]

/-- C3 (confirmed): `translate` returns the primary provider's result
whenever the primary call succeeds (in particular whenever the fetched
response is ok with a well-formed payload carrying a non-empty
`translatedText`); on any primary failure it evaluates the secondary
provider on the identical request and returns that outcome; and it
fails if and only if both providers fail, in which case it carries only
an error and no text. -/
theorem C3_translate_cascade
    (pf : TranslateRequest → Except String LTResponse)
    (sf : TranslateRequest → Except String MMResponse)
    (req : TranslateRequest) :
    (∀ t, translateViaLibre (pf req) = Except.ok t →
        translate pf sf req = Except.ok t)
  ∧ (∀ r, pf req = Except.ok r → r.ok = true → r.hasData = true →
        r.translatedText ≠ "" →
        translate pf sf req = Except.ok r.translatedText)
  ∧ (∀ e, translateViaLibre (pf req) = Except.error e →
        translate pf sf req = translateViaMyMemory (sf req))
  ∧ ((∃ e, translate pf sf req = Except.error e) ↔
      (∃ e, translateViaLibre (pf req) = Except.error e)
        ∧ ∃ e', translateViaMyMemory (sf req) = Except.error e') := by
  refine ⟨?_, ?_, ?_, ?_⟩
  · intro t h
    simp [translate, h]
  · intro r hr hok hdata hne
    have hlib : translateViaLibre (pf req) = Except.ok r.translatedText := by
      simp [translateViaLibre, hr, hok, hdata, hne]
    simp [translate, hlib]
  · intro e h
    simp [translate, h]
  · constructor
    · rintro ⟨e, he⟩
      cases h : translateViaLibre (pf req) with
      | ok t => simp [translate, h] at he
      | error e' =>
        refine ⟨⟨e', rfl⟩, ⟨e, ?_⟩⟩
        simpa [translate, h] using he
    · rintro ⟨⟨e1, h1⟩, ⟨e2, h2⟩⟩
      exact ⟨e2, by simp [translate, h1, h2]⟩

/-- Witness for the C3 cascade theorem: the primary fetch fails with a
network error, the secondary returns a well-formed payload, and
`translate` returns the secondary's text. -/
theorem C3_translate_witness :
    translate (fun _ => Except.error "network down")
      (fun _ => Except.ok ⟨true, 200, true, "ನಮಸ್ಕಾರ"⟩)
      ⟨"hello", "en", "kn"⟩
      = Except.ok "ನಮಸ್ಕಾರ" := by
  rw [(C3_translate_cascade (fun _ => Except.error "network down")
      (fun _ => Except.ok ⟨true, 200, true, "ನಮಸ್ಕಾರ"⟩)
      ⟨"hello", "en", "kn"⟩).2.2.1 "network down" rfl]
  rfl

/-- C6 (code_bug): evaluation of Reset at the failing input — a session
that is listening after a successful Start. The handler sets
`manualStop`, requests recognizer stop (whose failure is swallowed:
the outcome does not depend on whether `stop` throws), clears the
transcript and translation fields and the status/error lines — but it
leaves `listening = true` and the Start button disabled, instead of
transitioning the session to Idle as the claim states. -/
theorem C6_reset_keeps_listening :
    (let sL := (btnStartClick true false
        { sampleIdleState with knHeard := "old." }).1
     let r := btnResetClick false sL
     sL.listening = true
       ∧ r.1.manualStop = true
       ∧ r.2 = [RecCmd.stop]
       ∧ r.1.knHeard = "" ∧ r.1.enMeaning = ""
       ∧ r.1.myReplyEn = "" ∧ r.1.knReply = ""
       ∧ r.1.statusLine = "" ∧ r.1.errorLine = ""
       ∧ btnResetClick true sL = btnResetClick false sL
       ∧ r.1.listening = true
       ∧ r.1.btnStartDisabled = true) := by
  decide

/-- C7 (code_bug): evaluation at the failing interleaving. A
translation request is issued from a state with English reply
`"hello"`; Reset then completes, clearing `knReply`; when the pending
call resolves with `"ಹಲೋ"`, the resolution handler stores it into the
cleared `knReply` field and re-enables Speak-again — the stale result
does populate the post-reset state, although the claim says the field
remains cleared. -/
theorem C7_stale_translation_populates :
    (let sA := { sampleIdleState with myReplyEn := "hello" }
     let issued := btnTranslateToKnIssue sA
     let afterReset := (btnResetClick false issued.1).1
     issued.2 = some { q := "hello", source := "en", target := "kn" }
       ∧ afterReset.knReply = ""
       ∧ (btnTranslateToKnResolve "ಹಲೋ" afterReset).knReply = "ಹಲೋ"
       ∧ "ಹಲೋ" ≠ ""
       ∧ (btnTranslateToKnResolve "ಹಲೋ" afterReset).btnSpeakAgainDisabled
            = false) := by
  decide

/-- C9 (confirmed): `pickKannadaVoice` follows the strict preference
order of the claim — the first voice whose lowercased tag equals
`kn-in`; otherwise the first whose lowercased tag starts with the
two-letter code `kn`; otherwise the first for the regional fallback
locale (lowercased tag containing `en-in`); otherwise the first
available voice of any language; otherwise none, so the platform
default is used. -/
theorem C9_pickKannadaVoice_order (voices : List Voice) :
    (∀ v, voices.find? (fun v => jsToLower v.lang = "kn-in") = some v →
        pickKannadaVoice voices = some v)
  ∧ (voices.find? (fun v => jsToLower v.lang = "kn-in") = none →
      ∀ v, voices.find? (fun v => strStartsWith (jsToLower v.lang) "kn") = some v →
        pickKannadaVoice voices = some v)
  ∧ (voices.find? (fun v => jsToLower v.lang = "kn-in") = none →
      voices.find? (fun v => strStartsWith (jsToLower v.lang) "kn") = none →
      ∀ v, voices.find? (fun v => strIncludes (jsToLower v.lang) "en-in") = some v →
        pickKannadaVoice voices = some v)
  ∧ (voices.find? (fun v => jsToLower v.lang = "kn-in") = none →
      voices.find? (fun v => strStartsWith (jsToLower v.lang) "kn") = none →
      voices.find? (fun v => strIncludes (jsToLower v.lang) "en-in") = none →
        pickKannadaVoice voices = voices.head?) := by
  refine ⟨?_, ?_, ?_, ?_⟩
  · intro v h
    simp only [pickKannadaVoice, h]
  · intro h0 v h
    simp only [pickKannadaVoice, h0, h]
  · intro h0 h1 v h
    simp only [pickKannadaVoice, h0, h1, h]
  · intro h0 h1 h2
    simp only [pickKannadaVoice, h0, h1, h2]

/-- Witness for the C9 theorem: with no Kannada voice installed, the
voice for the regional fallback locale `en-IN` is selected. -/
theorem C9_pickKannadaVoice_witness :
    pickKannadaVoice [⟨"fr-FR", "Amelie"⟩, ⟨"en-IN", "Ravi"⟩]
      = some ⟨"en-IN", "Ravi"⟩ :=
  (C9_pickKannadaVoice_order _).2.2.1 (by decide) (by decide) _ (by decide)

/-- C10 (confirmed): when Start is clicked with speech recognition
available but the underlying `start()` call throwing, the session stays
non-listening, yet the transcript and translation fields have already
been cleared and `manualStop`/`reachedMax` reset — a failed Start does
not leave the state unchanged. -/
theorem C10_failed_start_state (s : AppState) (h : s.listening = false) :
    (btnStartClick true true s).1.listening = false
  ∧ (btnStartClick true true s).1.knHeard = ""
  ∧ (btnStartClick true true s).1.enMeaning = ""
  ∧ (btnStartClick true true s).1.myReplyEn = ""
  ∧ (btnStartClick true true s).1.knReply = ""
  ∧ (btnStartClick true true s).1.manualStop = false
  ∧ (btnStartClick true true s).1.reachedMax = false
  ∧ (btnStartClick true true s).1.errorLine
      = "Could not start mic. Allow mic permission and retry."
  ∧ (s.knHeard ≠ "" → (btnStartClick true true s).1 ≠ s) := by
  refine ⟨h, rfl, rfl, rfl, rfl, rfl, rfl, rfl, ?_⟩
  intro hne heq
  exact hne (by rw [← heq]; rfl)

/-- Witness for the C10 theorem at a state holding previously captured
text: the failed Start has changed the state. -/
theorem C10_failed_start_witness :
    (btnStartClick true true { sampleIdleState with knHeard := "a. b." }).1
      ≠ { sampleIdleState with knHeard := "a. b." } :=
  (C10_failed_start_state _ rfl).2.2.2.2.2.2.2.2 (by decide)

end AIInterpreter
